import Mathlib

/-!
# Verification of the `otf_api` Go client layer

Shallow embedding of the `otf_api` package (transport middleware, the
authentication flow, and the studio / schedule / booking resource clients)
together with theorems settling the specification's claims about it.

Conventions of the embedding:

* `net/http` requests are `Request` records; the `http.Header` map is an
  association list whose keys carry canonical MIME form (exactly the shape
  Go's `Header.Set` / `Header.Get` maintain).  A request's header is
  `Option`-valued because the Go field is a nilable map and `AddHeader`
  branches on `nil`.
* A `RoundTripper` is modelled by what the claims observe: the request it
  delivers to the wire.  The base transport (`http.DefaultTransport`) is the
  identity observer returning the on-wire request, so theorems can inspect
  the request that reaches the base of a middleware chain.
* Go `float64` values are modelled by the exact rational numbers they
  denote (`Rat`); binary64 rounding of arithmetic is not needed because the
  client only passes floats through and formats them.
* Fallible Go paths return `Except String` / `Option String`, the `String`
  being the error message built by the corresponding `fmt.Errorf`.
* One HTTP exchange is one function argument (`AuthOutcome`,
  `JsonHTTPResponse`, …): the operation receives the transport-level outcome
  and the embedding reproduces what the Go code does with it.  Client-state
  mutation becomes explicit state passing (`Client → … → Client × _`).
-/

namespace otf_api

/-! ## String helpers (modelling bits of `strings`, `net/url`, `strconv`) -/

/-- ASCII lower-casing of a string, used for Go `encoding/json`'s
case-insensitive field matching. -/
def asciiLower (s : String) : String :=
  String.mk (s.toList.map Char.toLower)

/-- Does the character list start with the given pattern? -/
def charListStartsWith : List Char → List Char → Bool
  | _, [] => true
  | [], _ :: _ => false
  | c :: cs, p :: ps => c == p && charListStartsWith cs ps

/-- Does the pattern occur as a contiguous run of the character list? -/
def charListContains (s pat : List Char) : Bool :=
  match s with
  | [] => pat.isEmpty
  | _ :: rest => charListStartsWith s pat || charListContains rest pat

/-- Go `strings.Contains s pat`: `pat` occurs as a substring of `s`
(an empty pattern is always contained). -/
def stringContains (s pat : String) : Bool :=
  charListContains s.toList pat.toList

/-- Upper-case hexadecimal digit, for percent-encoding. -/
def hexDigit (n : Nat) : Char :=
  if n < 10 then Char.ofNat (48 + n) else Char.ofNat (55 + n)

/-- Go `net/url.QueryEscape` restricted to the byte range the client emits
(ASCII): alphanumerics and `-_.~` are kept, space becomes `+`, everything
else is `%XX` percent-encoded. -/
def queryEscapeChar (c : Char) : String :=
  if c.isAlphanum || c = '-' || c = '_' || c = '.' || c = '~' then
    String.mk [c]
  else if c = ' ' then "+"
  else String.mk ['%', hexDigit (c.toNat / 16 % 16), hexDigit (c.toNat % 16)]

/-- Go `net/url.QueryEscape` on a whole string. -/
def queryEscape (s : String) : String :=
  String.join (s.toList.map queryEscapeChar)

/-- Byte-wise lexicographic comparison of character lists, the order
`sort.Strings` uses on (ASCII) keys. -/
def charListLe : List Char → List Char → Bool
  | [], _ => true
  | _ :: _, [] => false
  | c :: cs, d :: ds =>
    if c.toNat < d.toNat then true
    else if d.toNat < c.toNat then false
    else charListLe cs ds

/-- Byte-wise lexicographic string order (Go `s <= t` on ASCII strings). -/
def stringLe (a b : String) : Bool :=
  charListLe a.toList b.toList

/-- Insert a key/values pair into a list sorted by key (Go's
`url.Values.Encode` iterates keys in sorted order). -/
def insertByKey (kv : String × List String) :
    List (String × List String) → List (String × List String)
  | [] => [kv]
  | x :: xs => if stringLe kv.1 x.1 then kv :: x :: xs else x :: insertByKey kv xs

/-- Sort a `url.Values` association list by key. -/
def sortByKey (l : List (String × List String)) : List (String × List String) :=
  l.foldr insertByKey []

/-- Go `url.Values.Encode`: keys in sorted order, each value as
`key=value` with both sides query-escaped, entries joined by `&`. -/
def urlValuesEncode (vs : List (String × List String)) : String :=
  String.intercalate "&"
    ((sortByKey vs).flatMap (fun kv =>
      kv.2.map (fun v => queryEscape kv.1 ++ "=" ++ queryEscape v)))

/-! ## `net/http` headers

Go's `textproto.CanonicalMIMEHeaderKey`: if every byte is a valid header
field byte the key is canonicalised (first letter and any letter following
a hyphen upper-cased, all other letters lower-cased); otherwise the key is
returned unmodified. -/

/-- Valid MIME header field byte (Go `textproto.validHeaderFieldByte`):
letters, digits, and `!#$%&'*+-.^_|~` and backquote. -/
def isTokenChar (c : Char) : Bool :=
  c.isAlphanum || "!#$%&*+-.^_|~".toList.contains c ||
    c.toNat == 39 || c.toNat == 96

/-- Case-normalisation pass of `CanonicalMIMEHeaderKey`: `upper` records
whether the next letter starts a word (start of string or after a hyphen). -/
def canonicalChars : List Char → Bool → List Char
  | [], _ => []
  | c :: rest, upper =>
    (if upper then c.toUpper else c.toLower) :: canonicalChars rest (c == '-')

/-- Go `http.CanonicalHeaderKey` / `textproto.CanonicalMIMEHeaderKey`. -/
def canonicalMIMEHeaderKey (s : String) : String :=
  if s.toList.all isTokenChar then String.mk (canonicalChars s.toList true) else s

/-- The `http.Header`, restricted to how this repository uses it: every write
goes through `Header.Set`, which stores a single value under the canonical
key, so one string per key suffices (Go stores a one-element slice and
`Get` reads its first element). -/
def Header : Type := List (String × String)

/-- Go `http.Header.Set key value`: replace any entries for the canonical
form of `key` by the single `value`. -/
def headerSet (h : Header) (key value : String) : Header :=
  let ck := canonicalMIMEHeaderKey key
  (ck, value) :: (h : List (String × String)).filter (fun p => p.1 != ck)

/-- Go `http.Header.Get key`: the value stored under the canonical form of
`key`, if any. -/
def headerGet (h : Header) (key : String) : Option String :=
  ((h : List (String × String)).find?
    (fun p => p.1 == canonicalMIMEHeaderKey key)).map (·.2)

/-! ## `http.Request`, `RoundTripper`, and the middleware layer
(`src/unnamed/part_003`) -/

/-- The parts of `http.Request` the client reads or writes.  `header` is
`Option`-valued: the Go `Header` map may be nil, and `AddHeader` tests for
that. -/
structure Request where
  methodName : String
  url : String
  header : Option Header

/-- A `RoundTripper`, observed through the request it hands to the wire:
middlewares in this repository only mutate the request and delegate, so a
transport is determined by the cumulative request transformation.  The
value returned is the request as it is sent on the wire. -/
def RoundTripper : Type := Request → Request

/-- The `type Middleware func(http.RoundTripper) http.RoundTripper`. -/
def Middleware : Type := RoundTripper → RoundTripper

/-- The `http.DefaultTransport`, as the identity observer: it delivers the
request it receives to the wire unchanged. -/
def httpDefaultTransport : RoundTripper := fun req => req

/-- The `Chain(rt, middlewares...)`: substitute the default transport for a nil
base, then wrap each middleware in order around the previous result
(`for _, m := range middlewares { rt = m(rt) }`). -/
def Chain (rt : Option RoundTripper) (middlewares : List Middleware) :
    RoundTripper :=
  middlewares.foldl (fun acc m => m acc) (rt.getD httpDefaultTransport)

/-- The request mutation inside `AddHeader`'s round tripper (part_003 lines
28–34): read `req.Header`; when it is nil a fresh map is allocated and the
`Set` lands in that local map, which is never attached back to the request,
so the request is forwarded unchanged; otherwise `Set` mutates the
request's map in place. -/
def addHeaderToReq (key value : String) (req : Request) : Request :=
  match req.header with
  | none => req
  | some h => { req with header := some (headerSet h key value) }

/-- The `AddHeader(key, value)`: a middleware whose round tripper applies the
header mutation and then delegates to the wrapped transport. -/
def AddHeader (key value : String) : Middleware :=
  fun rt => fun req => rt (addHeaderToReq key value req)

/-- The `Header.Get` lifted to a request (nil header map has no entries). -/
def requestHeaderGet (req : Request) (key : String) : Option String :=
  match req.header with
  | none => none
  | some h => headerGet h key

/-! ## JSON values and Go `encoding/json` decoding

Numbers carry the exact rational value they denote: Go marshals a finite
`float64` with enough digits to round-trip and unmarshals it back to the
identical value, so at the level the claims observe, a JSON number is its
numeric value. -/

/-- A decoded JSON document. -/
inductive Json where
  | null
  | bool (b : Bool)
  | num (q : Rat)
  | str (s : String)
  | arr (elems : List Json)
  | obj (fields : List (String × Json))
  deriving Repr

/-- Go struct-field matching: an exact tag/name match is preferred, with a
case-insensitive match as fallback. -/
def jsonField (fields : List (String × Json)) (name : String) : Option Json :=
  match fields.find? (fun p => p.1 == name) with
  | some p => some p.2
  | none =>
    (fields.find? (fun p => asciiLower p.1 == asciiLower name)).map (·.2)

/-- Unmarshal a JSON value into a Go `string` (JSON `null` leaves the zero
value in place). -/
def decodeGoString : Json → Except String String
  | .str s => .ok s
  | .null => .ok ""
  | _ => .error "cannot unmarshal value into Go string"

/-- Unmarshal a JSON value into a Go `bool`. -/
def decodeGoBool : Json → Except String Bool
  | .bool b => .ok b
  | .null => .ok false
  | _ => .error "cannot unmarshal value into Go bool"

/-- Unmarshal a JSON value into a Go `int`: the number must be integral. -/
def decodeGoInt : Json → Except String Int
  | .num q => if q.den = 1 then .ok q.num else .error "cannot unmarshal non-integer number into Go int"
  | .null => .ok 0
  | _ => .error "cannot unmarshal value into Go int"

/-- Unmarshal a JSON value into a Go `float64` (modelled exactly). -/
def decodeGoFloat : Json → Except String Rat
  | .num q => .ok q
  | .null => .ok (0 : Rat)
  | _ => .error "cannot unmarshal value into Go float64"

/-- Decode one struct field: an absent field leaves the zero value
`dflt` untouched, a present field is decoded with `dec`. -/
def decField (fields : List (String × Json)) (name : String)
    (dec : Json → Except String α) (dflt : α) : Except String α :=
  match jsonField fields name with
  | none => .ok dflt
  | some j => dec j

/-- Unmarshal a JSON value into a Go slice (`null` leaves a nil slice). -/
def decodeGoList (dec : Json → Except String α) : Json → Except String (List α)
  | .null => .ok []
  | .arr xs => xs.mapM dec
  | _ => .error "cannot unmarshal value into Go slice"

/-! ## The `Client` (`src/unnamed/part_004`) and authentication
(`src/otf_api/auth.go`) -/

/-- The `otf_api.Client`.  `Transport` stands for
`Client.HTTPClient.Transport`, the only part of the embedded `http.Client`
the claims observe (a freshly constructed client has a nil transport, i.e.
the default transport). -/
structure Client where
  BaseIOURL : String
  BaseCOURL : String
  AuthURL : String
  Token : String
  Transport : RoundTripper

/-- The `func (c *Client) NeedAuth() bool { return c.Token == "" }`. -/
def Client.NeedAuth (c : Client) : Bool :=
  c.Token == ""

/-- The `type IDToken struct { IDToken string `json:"IdToken"` }`. -/
structure IDToken where
  IDToken : String
  deriving Repr, DecidableEq

/-- The `type AuthenticateResponse struct { AuthenticationResult IDToken }`. -/
structure AuthenticateResponse where
  AuthenticationResult : IDToken
  deriving Repr, DecidableEq

/-- Unmarshal into `IDToken` (field tag `IdToken`). -/
def decodeIDToken : Json → Except String IDToken
  | .null => .ok { IDToken := "" }
  | .obj fs => do
    let t ← decField fs "IdToken" decodeGoString ""
    .ok { IDToken := t }
  | _ => .error "cannot unmarshal value into IDToken"

/-- Unmarshal into `AuthenticateResponse` (field tag
`AuthenticationResult`). -/
def decodeAuthenticateResponse : Json → Except String AuthenticateResponse
  | .null => .ok { AuthenticationResult := { IDToken := "" } }
  | .obj fs => do
    let r ← decField fs "AuthenticationResult" decodeIDToken { IDToken := "" }
    .ok { AuthenticationResult := r }
  | _ => .error "cannot unmarshal value into AuthenticateResponse"

/-- Outcome of the single POST `Authenticate` issues: the transport can
fail, the body can fail to decode as JSON, or a JSON document is decoded
from the body. -/
inductive AuthOutcome where
  | httpErr (msg : String)
  | badBody (msg : String)
  | body (j : Json)

/-- The `func (c *Client) Authenticate(ctx, username, password) (err error)`
(`src/otf_api/auth.go` lines 40–112).  Guarded by `NeedAuth`; on a decoded
body the token (possibly empty) is stored unconditionally and the client's
transport is replaced by
`Chain(nil, AddHeader("Authorization", "Bearer "+token), AddHeader("Content-Type", "application/json"))`.
Marshalling the fixed-shape request body and constructing the POST request
cannot fail for string inputs, so those error branches are not reachable in
the model; the request itself is summarised by the `AuthOutcome`. -/
def Client.Authenticate (c : Client) (out : AuthOutcome) :
    Client × Option String :=
  if c.NeedAuth then
    match out with
    | .httpErr m => (c, some ("error authenticating: " ++ m))
    | .badBody m => (c, some ("error parsing response: " ++ m))
    | .body j =>
      match decodeAuthenticateResponse j with
      | .error m => (c, some ("error parsing response: " ++ m))
      | .ok parsedResp =>
        let token := parsedResp.AuthenticationResult.IDToken
        ({ c with
            Token := token,
            Transport := Chain none
              [AddHeader (canonicalMIMEHeaderKey "authorization") ("Bearer " ++ token),
               AddHeader (canonicalMIMEHeaderKey "content-type") "application/json"] },
          none)
  else (c, none)

/-! ## Schedule fetch (`src/otf_api/schedule.go`) -/

/-- The `StudioClassStudioAddress` (all string fields, snake_case tags). -/
structure StudioClassStudioAddress where
  Line1 : String
  City : String
  State : String
  Country : String
  PostalCode : String
  deriving Repr, DecidableEq

/-- The `StudioClassStudio`. -/
structure StudioClassStudio where
  ID : String
  Name : String
  PhoneNumber : String
  Latitude : Rat
  Longitude : Rat
  Address : StudioClassStudioAddress
  deriving Repr, DecidableEq

/-- The `StudioClass`.  The two `time.Time` fields are modelled by their
RFC3339 text: the claims never inspect time values, only whether decoding
succeeds, and a JSON string is what their decoder consumes (format
validation of the timestamp text is not modelled). -/
structure StudioClass where
  ID : String
  StartsAt : String
  EndsAt : String
  Name : String
  MaxCapacity : Int
  BookingCapacity : Int
  WaitlistSize : Int
  WaitlistAvailable : Bool
  Canceled : Bool
  Studio : StudioClassStudio
  deriving Repr, DecidableEq

/-- The `StudioScheduleResponse { Items []StudioClass `json:"items"` }`. -/
structure StudioScheduleResponse where
  Items : List StudioClass
  deriving Repr, DecidableEq

/-- The `FilterValues`. -/
structure FilterValues where
  Value : String
  DisplayName : String
  IconURL : String
  deriving Repr, DecidableEq

/-- The `FilterItem`. -/
structure FilterItem where
  Name : String
  DisplayName : String
  ClassFieldName : String
  Values : List FilterValues
  deriving Repr, DecidableEq

/-- The `ClassTypeFiltersResponse { Items []FilterItem }` — note: no JSON tag,
so the effective key is the field name `Items`, matched case-insensitively
by Go's decoder. -/
structure ClassTypeFiltersResponse where
  Items : List FilterItem
  deriving Repr, DecidableEq

/-- Unmarshal into `StudioClassStudioAddress`. -/
def decodeStudioClassStudioAddress : Json → Except String StudioClassStudioAddress
  | .null => .ok ⟨"", "", "", "", ""⟩
  | .obj fs => do
    let line1 ← decField fs "line1" decodeGoString ""
    let city ← decField fs "city" decodeGoString ""
    let state ← decField fs "state" decodeGoString ""
    let country ← decField fs "country" decodeGoString ""
    let postalCode ← decField fs "postal_code" decodeGoString ""
    .ok ⟨line1, city, state, country, postalCode⟩
  | _ => .error "cannot unmarshal value into StudioClassStudioAddress"

/-- Unmarshal into `StudioClassStudio`. -/
def decodeStudioClassStudio : Json → Except String StudioClassStudio
  | .null => .ok ⟨"", "", "", 0, 0, ⟨"", "", "", "", ""⟩⟩
  | .obj fs => do
    let id ← decField fs "id" decodeGoString ""
    let name ← decField fs "name" decodeGoString ""
    let phoneNumber ← decField fs "phone_number" decodeGoString ""
    let latitude ← decField fs "latitude" decodeGoFloat 0
    let longitude ← decField fs "longitude" decodeGoFloat 0
    let address ← decField fs "address" decodeStudioClassStudioAddress ⟨"", "", "", "", ""⟩
    .ok ⟨id, name, phoneNumber, latitude, longitude, address⟩
  | _ => .error "cannot unmarshal value into StudioClassStudio"

/-- Unmarshal into `StudioClass`. -/
def decodeStudioClass : Json → Except String StudioClass
  | .null => .ok ⟨"", "", "", "", 0, 0, 0, false, false, ⟨"", "", "", 0, 0, ⟨"", "", "", "", ""⟩⟩⟩
  | .obj fs => do
    let id ← decField fs "id" decodeGoString ""
    let startsAt ← decField fs "starts_at" decodeGoString ""
    let endsAt ← decField fs "ends_at" decodeGoString ""
    let name ← decField fs "name" decodeGoString ""
    let maxCapacity ← decField fs "max_capacity" decodeGoInt 0
    let bookingCapacity ← decField fs "booking_capacity" decodeGoInt 0
    let waitlistSize ← decField fs "waitlist_size" decodeGoInt 0
    let waitlistAvailable ← decField fs "waitlist_available" decodeGoBool false
    let canceled ← decField fs "canceled" decodeGoBool false
    let studio ← decField fs "studio" decodeStudioClassStudio ⟨"", "", "", 0, 0, ⟨"", "", "", "", ""⟩⟩
    .ok ⟨id, startsAt, endsAt, name, maxCapacity, bookingCapacity, waitlistSize,
         waitlistAvailable, canceled, studio⟩
  | _ => .error "cannot unmarshal value into StudioClass"

/-- Unmarshal into `StudioScheduleResponse`: decoding any single item
fails the whole document (`mapM`), discarding the entire response. -/
def decodeStudioScheduleResponse : Json → Except String StudioScheduleResponse
  | .null => .ok ⟨[]⟩
  | .obj fs => do
    let items ← decField fs "items" (decodeGoList decodeStudioClass) []
    .ok ⟨items⟩
  | _ => .error "cannot unmarshal value into StudioScheduleResponse"

/-- Unmarshal into `FilterValues`. -/
def decodeFilterValues : Json → Except String FilterValues
  | .null => .ok ⟨"", "", ""⟩
  | .obj fs => do
    let value ← decField fs "value" decodeGoString ""
    let displayName ← decField fs "display_name" decodeGoString ""
    let iconURL ← decField fs "icon_url" decodeGoString ""
    .ok ⟨value, displayName, iconURL⟩
  | _ => .error "cannot unmarshal value into FilterValues"

/-- Unmarshal into `FilterItem`. -/
def decodeFilterItem : Json → Except String FilterItem
  | .null => .ok ⟨"", "", "", []⟩
  | .obj fs => do
    let name ← decField fs "name" decodeGoString ""
    let displayName ← decField fs "display_name" decodeGoString ""
    let classFieldName ← decField fs "class_field_type" decodeGoString ""
    let values ← decField fs "values" (decodeGoList decodeFilterValues) []
    .ok ⟨name, displayName, classFieldName, values⟩
  | _ => .error "cannot unmarshal value into FilterItem"

/-- Unmarshal into `ClassTypeFiltersResponse` (untagged field `Items`,
matched case-insensitively, so a lower-case `items` key also lands here). -/
def decodeClassTypeFiltersResponse : Json → Except String ClassTypeFiltersResponse
  | .null => .ok ⟨[]⟩
  | .obj fs => do
    let items ← decField fs "Items" (decodeGoList decodeFilterItem) []
    .ok ⟨items⟩
  | _ => .error "cannot unmarshal value into ClassTypeFiltersResponse"

/-- An HTTP response whose body the client feeds to the JSON decoder:
status code plus either a decoded JSON document or a JSON syntax error. -/
structure JsonHTTPResponse where
  statusCode : Nat
  body : Except String Json

/-- The `func (c *Client) GetStudiosSchedules(ctx, studioIDs)` (schedule.go
lines 69–102).  Builds the GET against `BaseIOURL + "classes?..."`, sends
it, and decodes the body; a transport error is returned unwrapped, a decode
failure is wrapped as `error parsing response: …`.  The response status
code is never read. -/
def Client.GetStudiosSchedules (c : Client) (studioIDs : List String)
    (out : Except String JsonHTTPResponse) :
    Client × StudioScheduleResponse × Option String :=
  let _url := c.BaseIOURL ++ "classes?" ++
    urlValuesEncode [("studio_ids", studioIDs)]
  match out with
  | .error m => (c, ⟨[]⟩, some m)
  | .ok res =>
    match res.body >>= decodeStudioScheduleResponse with
    | .error m => (c, ⟨[]⟩, some ("error parsing response: " ++ m))
    | .ok parsedResp => (c, parsedResp, none)

/-- The `func (c *Client) GetClassTypeFilter(ctx)` (schedule.go lines 104–137).
Transport and request-preparation errors are wrapped with the operation
name; a decode failure is wrapped as
`error parsing response for GetClassTypeFilter: …`.  As in
`GetStudiosSchedules`, the status code is never read. -/
def Client.GetClassTypeFilter (c : Client)
    (out : Except String JsonHTTPResponse) :
    Client × ClassTypeFiltersResponse × Option String :=
  let _urlPath := c.BaseIOURL ++ "classes/filters"
  match out with
  | .error m => (c, ⟨[]⟩, some ("executing request for GetClassTypeFilter: " ++ m))
  | .ok res =>
    match res.body >>= decodeClassTypeFiltersResponse with
    | .error m => (c, ⟨[]⟩, some ("error parsing response for GetClassTypeFilter: " ++ m))
    | .ok parsedResp => (c, parsedResp, none)

/-! ## Booking management (`src/otf_api/booking.go`) -/

/-- The `Address` (booking.go lines 60–66). -/
structure Address where
  Line1 : String
  City : String
  State : String
  Country : String
  PostalCode : String
  deriving Repr, DecidableEq

/-- The `Coach` (booking.go lines 68–71). -/
structure Coach where
  FirstName : String
  ImageURL : String
  deriving Repr, DecidableEq

/-- The `BookingStudio` (booking.go lines 47–58). -/
structure BookingStudio where
  ID : String
  Name : String
  MboStudioID : String
  TimeZone : String
  Email : String
  Address : Address
  CurrencyCode : String
  PhoneNumber : String
  Latitude : Rat
  Longitude : Rat
  deriving Repr, DecidableEq

/-- The `Class` (booking.go lines 37–45). -/
structure Class where
  ID : String
  Name : String
  TypeName : String
  StartsAtLocal : String
  StartsAt : String
  Studio : BookingStudio
  Coach : Coach
  deriving Repr, DecidableEq

/-- The `BookingRequest` (booking.go lines 17–35). -/
structure BookingRequest where
  ID : String
  PayingStudioID : String
  PersonID : String
  MemberID : String
  ServiceName : String
  CheckedIn : Bool
  CrossRegional : Bool
  LateCanceled : Bool
  Intro : Bool
  MboBookingID : String
  MboUniqueID : String
  MboPayingUniqueID : String
  Canceled : Bool
  CreatedAt : String
  UpdatedAt : String
  Ratable : Bool
  Class : Class
  deriving Repr, DecidableEq

/-- The `BookingResponse { Items []BookingRequest; Booking *BookingRequest }`.
The pointer field is an `Option`. -/
structure BookingResponse where
  Items : List BookingRequest
  Booking : Option BookingRequest
  deriving Repr, DecidableEq

/-- The `json.Marshal` of `Address`: an object with the tagged fields in
declaration order. -/
def encodeAddress (a : Address) : Json :=
  .obj [("line1", .str a.Line1), ("city", .str a.City), ("state", .str a.State),
        ("country", .str a.Country), ("postal_code", .str a.PostalCode)]

/-- The `json.Marshal` of `Coach`. -/
def encodeCoach (co : Coach) : Json :=
  .obj [("first_name", .str co.FirstName), ("image_url", .str co.ImageURL)]

/-- The `json.Marshal` of `BookingStudio`. -/
def encodeBookingStudio (s : BookingStudio) : Json :=
  .obj [("id", .str s.ID), ("name", .str s.Name),
        ("mbo_studio_id", .str s.MboStudioID), ("time_zone", .str s.TimeZone),
        ("email", .str s.Email), ("address", encodeAddress s.Address),
        ("currency_code", .str s.CurrencyCode), ("phone_number", .str s.PhoneNumber),
        ("latitude", .num s.Latitude), ("longitude", .num s.Longitude)]

/-- The `json.Marshal` of `Class` (tag `type` for the `Type` field, whose Lean
name is `TypeName`). -/
def encodeClass (cl : Class) : Json :=
  .obj [("id", .str cl.ID), ("name", .str cl.Name), ("type", .str cl.TypeName),
        ("starts_at_local", .str cl.StartsAtLocal), ("starts_at", .str cl.StartsAt),
        ("studio", encodeBookingStudio cl.Studio), ("coach", encodeCoach cl.Coach)]

/-- The `json.Marshal` of `BookingRequest`. -/
def encodeBookingRequest (b : BookingRequest) : Json :=
  .obj [("id", .str b.ID), ("paying_studio_id", .str b.PayingStudioID),
        ("person_id", .str b.PersonID), ("member_id", .str b.MemberID),
        ("service_name", .str b.ServiceName), ("checked_in", .bool b.CheckedIn),
        ("cross_regional", .bool b.CrossRegional), ("late_canceled", .bool b.LateCanceled),
        ("intro", .bool b.Intro), ("mbo_booking_id", .str b.MboBookingID),
        ("mbo_unique_id", .str b.MboUniqueID), ("mbo_paying_unique_id", .str b.MboPayingUniqueID),
        ("canceled", .bool b.Canceled), ("created_at", .str b.CreatedAt),
        ("updated_at", .str b.UpdatedAt), ("ratable", .bool b.Ratable),
        ("class", encodeClass b.Class)]

/-- Unmarshal into `Address`. -/
def decodeAddress : Json → Except String Address
  | .null => .ok ⟨"", "", "", "", ""⟩
  | .obj fs => do
    let line1 ← decField fs "line1" decodeGoString ""
    let city ← decField fs "city" decodeGoString ""
    let state ← decField fs "state" decodeGoString ""
    let country ← decField fs "country" decodeGoString ""
    let postalCode ← decField fs "postal_code" decodeGoString ""
    .ok ⟨line1, city, state, country, postalCode⟩
  | _ => .error "cannot unmarshal value into Address"

/-- Unmarshal into `Coach`. -/
def decodeCoach : Json → Except String Coach
  | .null => .ok ⟨"", ""⟩
  | .obj fs => do
    let firstName ← decField fs "first_name" decodeGoString ""
    let imageURL ← decField fs "image_url" decodeGoString ""
    .ok ⟨firstName, imageURL⟩
  | _ => .error "cannot unmarshal value into Coach"

/-- Unmarshal into `BookingStudio`. -/
def decodeBookingStudio : Json → Except String BookingStudio
  | .null => .ok ⟨"", "", "", "", "", ⟨"", "", "", "", ""⟩, "", "", 0, 0⟩
  | .obj fs => do
    let id ← decField fs "id" decodeGoString ""
    let name ← decField fs "name" decodeGoString ""
    let mboStudioID ← decField fs "mbo_studio_id" decodeGoString ""
    let timeZone ← decField fs "time_zone" decodeGoString ""
    let email ← decField fs "email" decodeGoString ""
    let address ← decField fs "address" decodeAddress ⟨"", "", "", "", ""⟩
    let currencyCode ← decField fs "currency_code" decodeGoString ""
    let phoneNumber ← decField fs "phone_number" decodeGoString ""
    let latitude ← decField fs "latitude" decodeGoFloat 0
    let longitude ← decField fs "longitude" decodeGoFloat 0
    .ok ⟨id, name, mboStudioID, timeZone, email, address, currencyCode,
         phoneNumber, latitude, longitude⟩
  | _ => .error "cannot unmarshal value into BookingStudio"

/-- Unmarshal into `Class`. -/
def decodeClass : Json → Except String Class
  | .null => .ok ⟨"", "", "", "", "", ⟨"", "", "", "", "", ⟨"", "", "", "", ""⟩, "", "", 0, 0⟩, ⟨"", ""⟩⟩
  | .obj fs => do
    let id ← decField fs "id" decodeGoString ""
    let name ← decField fs "name" decodeGoString ""
    let typeName ← decField fs "type" decodeGoString ""
    let startsAtLocal ← decField fs "starts_at_local" decodeGoString ""
    let startsAt ← decField fs "starts_at" decodeGoString ""
    let studio ← decField fs "studio" decodeBookingStudio
      ⟨"", "", "", "", "", ⟨"", "", "", "", ""⟩, "", "", 0, 0⟩
    let coach ← decField fs "coach" decodeCoach ⟨"", ""⟩
    .ok ⟨id, name, typeName, startsAtLocal, startsAt, studio, coach⟩
  | _ => .error "cannot unmarshal value into Class"

/-- The zero value of `BookingRequest`. -/
def BookingRequest.zero : BookingRequest :=
  ⟨"", "", "", "", "", false, false, false, false, "", "", "", false, "", "", false,
   ⟨"", "", "", "", "", ⟨"", "", "", "", "", ⟨"", "", "", "", ""⟩, "", "", 0, 0⟩, ⟨"", ""⟩⟩⟩

/-- Unmarshal into `BookingRequest`. -/
def decodeBookingRequest : Json → Except String BookingRequest
  | .null => .ok BookingRequest.zero
  | .obj fs => do
    let id ← decField fs "id" decodeGoString ""
    let payingStudioID ← decField fs "paying_studio_id" decodeGoString ""
    let personID ← decField fs "person_id" decodeGoString ""
    let memberID ← decField fs "member_id" decodeGoString ""
    let serviceName ← decField fs "service_name" decodeGoString ""
    let checkedIn ← decField fs "checked_in" decodeGoBool false
    let crossRegional ← decField fs "cross_regional" decodeGoBool false
    let lateCanceled ← decField fs "late_canceled" decodeGoBool false
    let intro ← decField fs "intro" decodeGoBool false
    let mboBookingID ← decField fs "mbo_booking_id" decodeGoString ""
    let mboUniqueID ← decField fs "mbo_unique_id" decodeGoString ""
    let mboPayingUniqueID ← decField fs "mbo_paying_unique_id" decodeGoString ""
    let canceled ← decField fs "canceled" decodeGoBool false
    let createdAt ← decField fs "created_at" decodeGoString ""
    let updatedAt ← decField fs "updated_at" decodeGoString ""
    let ratable ← decField fs "ratable" decodeGoBool false
    let cl ← decField fs "class" decodeClass BookingRequest.zero.Class
    .ok ⟨id, payingStudioID, personID, memberID, serviceName, checkedIn,
         crossRegional, lateCanceled, intro, mboBookingID, mboUniqueID,
         mboPayingUniqueID, canceled, createdAt, updatedAt, ratable, cl⟩
  | _ => .error "cannot unmarshal value into BookingRequest"

/-- Unmarshal into `BookingResponse` (`items` is `omitempty` on the encode
side only; a nil pointer comes back for an absent `booking`). -/
def decodeBookingResponse : Json → Except String BookingResponse
  | .null => .ok ⟨[], none⟩
  | .obj fs => do
    let items ← decField fs "items" (decodeGoList decodeBookingRequest) []
    let booking ← decField fs "booking"
      (fun j => match j with
        | .null => .ok none
        | j => (decodeBookingRequest j).map some) none
    .ok ⟨items, booking⟩
  | _ => .error "cannot unmarshal value into BookingResponse"

/-- An HTTP response as `BookClass` / `CancelBooking` / `GetBookings`
consume it: status code, the `Content-Encoding` header value, the raw body
bytes (as text), and — when the raw body is a well-formed gzip stream —
the text it decompresses to (`none` when `gzip.NewReader` would fail on
it). -/
structure BodyHTTPResponse where
  statusCode : Nat
  contentEncoding : String
  rawBody : String
  gzipDecompressed : Option String

/-- The `func (c *Client) BookClass(ctx, bookingReq)` (booking.go lines
80–151).  The outbound booking request body is an already-marshallable
JSON value (marshalling it cannot fail), the POST goes to
`BaseIOURL/bookings/me`; the response handling: any status other than 200
and 201 is a failure whose message carries the status code and the body,
the body being read through a gzip reader whenever the response's
`Content-Encoding` contains `gzip`. -/
def Client.BookClass (c : Client) (bookingReq : Json)
    (out : Except String BodyHTTPResponse) : Client × Option String :=
  let _jsonBody := bookingReq
  let _apiURL := c.BaseIOURL ++ "/bookings/me"
  match out with
  | .error m => (c, some ("error executing request: " ++ m))
  | .ok res =>
    if res.statusCode != 200 && res.statusCode != 201 then
      if stringContains res.contentEncoding "gzip" then
        match res.gzipDecompressed with
        | none =>
          (c, some ("booking request failed with status code: " ++
            toString res.statusCode ++ ", failed to create gzip reader: gzip: invalid header"))
        | some body =>
          (c, some ("booking request failed with status code: " ++
            toString res.statusCode ++ ", response body: " ++ body))
      else
        (c, some ("booking request failed with status code: " ++
          toString res.statusCode ++ ", response body: " ++ res.rawBody))
    else
      (c, none)

/-- The `func (c *Client) CancelBooking(ctx, bookingID)` (booking.go lines
154–193): DELETE to `bookings/me/{id}`; success is 200 or 204; any other
status yields an error carrying the status code and the raw body (no gzip
branch). -/
def Client.CancelBooking (c : Client) (bookingID : String)
    (out : Except String BodyHTTPResponse) : Client × Option String :=
  let _apiURL := c.BaseIOURL ++ "/bookings/me/" ++ bookingID
  match out with
  | .error m => (c, some ("error executing request: " ++ m))
  | .ok res =>
    if res.statusCode != 200 && res.statusCode != 204 then
      (c, some ("cancel request failed with status code: " ++
        toString res.statusCode ++ ", response body: " ++ res.rawBody))
    else
      (c, none)

/-- The `func (c *Client) GetBookings(ctx, startsAfter, endsBefore,
includeCanceled)` (booking.go lines 196–259).  The two `time.Time`
parameters enter the model as their RFC3339 text.  Success requires
status 200 (any other status errors with status + raw body, not
gzip-aware); the 200 body is then unmarshalled into `BookingResponse`
and its `Items` are returned. -/
def Client.GetBookings (c : Client) (startsAfterRFC3339 endsBeforeRFC3339 : String)
    (includeCanceled : Bool) (out : Except String BodyHTTPResponse)
    (bodyJson : Except String Json) :
    Client × List BookingRequest × Option String :=
  let _fullURL := c.BaseIOURL ++ "/bookings/me?" ++
    urlValuesEncode [("starts_after", [startsAfterRFC3339]),
                     ("ends_before", [endsBeforeRFC3339]),
                     ("include_canceled", [if includeCanceled then "true" else "false"])]
  match out with
  | .error m => (c, [], some ("error executing request: " ++ m))
  | .ok res =>
    if res.statusCode != 200 then
      (c, [], some ("get bookings request failed with status code: " ++
        toString res.statusCode ++ ", response body: " ++ res.rawBody))
    else
      match bodyJson >>= decodeBookingResponse with
      | .error m => (c, [], some ("error unmarshaling response: " ++ m))
      | .ok response => (c, response.Items, none)


/-! ## Studio search (`src/otf_api/studios.go` and `src/unnamed/part_008`)

The repository carries two builds of `ListStudios`.  The one in
`src/unnamed/part_008` formats the caller's latitude/longitude/distance
with `strconv.FormatFloat(v, 'f', 15, 64)`; the one in
`src/otf_api/studios.go` ignores the caller's arguments and hard-codes the
three query values.  Both are embedded, in namespaces named after their
files. -/

/-- The `k` low decimal digits of `n`, most significant first (zero-padded
to exactly `k` characters). -/
def natFixedDigits : Nat → Nat → List Char
  | 0, _ => []
  | k + 1, n => natFixedDigits k (n / 10) ++ [Char.ofNat (48 + n % 10)]

/-- Round the fraction `num/den` (with `den > 0`) to the nearest integer,
ties to even — the rounding `strconv`'s fixed-precision decimal conversion
applies.  `Int.fdiv` is floor division; the fractional part
`(num - f*den)/den` is compared with `1/2` by cross-multiplying, keeping
the whole computation on integers. -/
def roundScaledHalfEven (num : Int) (den : Nat) : Int :=
  let f := Int.fdiv num den
  let rnum := num - f * (den : Int)
  if 2 * rnum < (den : Int) then f
  else if (den : Int) < 2 * rnum then f + 1
  else if f % 2 = 0 then f else f + 1

namespace part_008

/-- The `func toString(v float64) string { return strconv.FormatFloat(v, 'f', 15, 64) }`
(part_008 lines 98–100): fixed-point notation with exactly 15 digits after
the decimal point, correctly rounded.  The binary64 argument is modelled by
the exact rational it denotes. -/
def toString (v : Rat) : String :=
  let m : Rat := if v.num < 0 then -v else v
  let scaled := (roundScaledHalfEven (m.num * 10 ^ 15) m.den).toNat
  (if v.num < 0 then "-" else "") ++
    Nat.repr (scaled / 10 ^ 15) ++ "." ++
    String.mk (natFixedDigits 15 (scaled % 10 ^ 15))

/-- The `url.Values` literal of part_008's `ListStudios` (lines 65–75):
each query key carries the formatted caller-supplied value. -/
def ListStudios_params (lat long distance : Rat) : List (String × List String) :=
  [("latitude", [toString lat]),
   ("longitude", [toString long]),
   ("distance", [toString distance])]

/-- The GET request part_008's `ListStudios` builds (lines 77–78):
`c.BaseCOURL + "studios?" + params.Encode()`, with the empty header map a
fresh `http.NewRequestWithContext` carries. -/
def ListStudios_buildRequest (c : Client) (lat long distance : Rat) : Request :=
  { methodName := "GET",
    url := c.BaseCOURL ++ "studios?" ++ urlValuesEncode (ListStudios_params lat long distance),
    header := some [] }

end part_008

namespace studios_go

/-- The `url.Values` literal of `src/otf_api/studios.go`'s `ListStudios`
(lines 54–64): three hard-coded strings; the caller's arguments do not
occur in it. -/
def ListStudios_params (_lat _long _distance : Rat) : List (String × List String) :=
  [("latitude", ["30.259373217464326"]),
   ("longitude", ["-97.70429793893"]),
   ("distance", ["50.0"])]

/-- The GET request `studios.go`'s `ListStudios` builds (lines 69–82),
including the wholesale header assignment `req.Header = http.Header{...}`. -/
def ListStudios_buildRequest (c : Client) (lat long distance : Rat) : Request :=
  { methodName := "GET",
    url := c.BaseCOURL ++ "studios?" ++ urlValuesEncode (ListStudios_params lat long distance),
    header := some [("Content-Type", "application/json"), ("Authorization", c.Token)] }

/-- The `func (c *Client) ListStudios(ctx, lat, long, distance) error`
(studios.go lines 48–96): sends the request, reads the whole body, prints
it, and returns nil; a transport or read error is returned unwrapped. -/
def ListStudios (c : Client) (lat long distance : Rat)
    (out : Except String String) : Client × Option String :=
  let _req := ListStudios_buildRequest c lat long distance
  match out with
  | .error m => (c, some m)
  | .ok _body => (c, none)

end studios_go

/-! ## Helper lemmas on headers and middleware chains -/

/-- The `Header.Get` after `Header.Set` of a key with the same canonical form
returns the value just set. -/
theorem headerGet_headerSet_self (h : Header) (k k' v : String)
    (hk : canonicalMIMEHeaderKey k = canonicalMIMEHeaderKey k') :
    headerGet (headerSet h k v) k' = some v := by
  simp [headerGet, headerSet, List.find?, hk]

/-- The `List.find?` for one key is unaffected by filtering out a different
key. -/
theorem find?_filter_ne (ck ck' : String) (hne : ck ≠ ck') :
    ∀ l : List (String × String),
      (l.filter (fun p => p.1 != ck)).find? (fun p => p.1 == ck') =
        l.find? (fun p => p.1 == ck')
  | [] => rfl
  | x :: rest => by
    by_cases hx : x.1 = ck
    · have hxk : (x.1 != ck) = false := by simp [hx]
      have hx' : (x.1 == ck') = false := by rw [hx]; simp [hne]
      simp [List.filter_cons, List.find?_cons, hxk, hx', find?_filter_ne ck ck' hne rest]
    · have hxk : (x.1 != ck) = true := by simp [hx]
      cases hpx : (x.1 == ck') with
      | true => simp [List.filter_cons, hxk, List.find?_cons, hpx]
      | false =>
        simp [List.filter_cons, hxk, List.find?_cons, hpx, find?_filter_ne ck ck' hne rest]

/-- The `Header.Get` after `Header.Set` of a key with a different canonical
form is unchanged. -/
theorem headerGet_headerSet_of_ne (h : Header) (k k' v : String)
    (hne : canonicalMIMEHeaderKey k ≠ canonicalMIMEHeaderKey k') :
    headerGet (headerSet h k v) k' = headerGet h k' := by
  have hb : (canonicalMIMEHeaderKey k == canonicalMIMEHeaderKey k') = false := by
    simp [hne]
  simp [headerGet, headerSet, List.find?_cons, hb,
    find?_filter_ne _ _ hne (h : List (String × String))]

/-- Iterated `addHeaderToReq`, innermost-first: `setAllHeaders ms req`
applies the mutation of the *last* element of `ms` first and of the first
element last, which is exactly the execution order of a `Chain` of
`AddHeader` middlewares built from `ms`. -/
def setAllHeaders : List (String × String) → Request → Request
  | [], req => req
  | p :: rest, req => addHeaderToReq p.1 p.2 (setAllHeaders rest req)

/-- Running a `Chain` of `AddHeader` middlewares delivers to its base
transport the request with all the mutations applied, the first
middleware's mutation applied last (outermost). -/
theorem Chain_addHeader_apply (base : RoundTripper) (ms : List (String × String))
    (req : Request) :
    Chain (some base) (ms.map (fun p => AddHeader p.1 p.2)) req =
      base (setAllHeaders ms req) := by
  induction ms generalizing base with
  | nil => rfl
  | cons p rest ih =>
    show Chain (some (AddHeader p.1 p.2 base)) (rest.map (fun p => AddHeader p.1 p.2)) req = _
    rw [ih]
    rfl

/-- A nil base in `Chain` is replaced by the default transport. -/
theorem Chain_none_addHeader_apply (ms : List (String × String)) (req : Request) :
    Chain none (ms.map (fun p => AddHeader p.1 p.2)) req =
      httpDefaultTransport (setAllHeaders ms req) :=
  Chain_addHeader_apply httpDefaultTransport ms req

/-- The `setAllHeaders` keeps the header map non-nil. -/
theorem setAllHeaders_header_some (ms : List (String × String)) (req : Request)
    (h : Header) (hh : req.header = some h) :
    ∃ h2, (setAllHeaders ms req).header = some h2 := by
  induction ms with
  | nil => exact ⟨h, hh⟩
  | cons p rest ih =>
    obtain ⟨h2, hh2⟩ := ih
    exact ⟨headerSet h2 p.1 p.2, by simp [setAllHeaders, addHeaderToReq, hh2]⟩

/-- The header a request carries after `setAllHeaders`: the key's value is
that of the *first* matching pair of `ms` (whose mutation ran last), and a
key matched by no pair keeps its original value. -/
theorem requestHeaderGet_setAllHeaders (ms : List (String × String)) (req : Request)
    (h : Header) (hh : req.header = some h) (k : String) :
    requestHeaderGet (setAllHeaders ms req) k =
      match ms.find? (fun p => canonicalMIMEHeaderKey p.1 == canonicalMIMEHeaderKey k) with
      | some p => some p.2
      | none => headerGet h k := by
  induction ms with
  | nil => simp [setAllHeaders, requestHeaderGet, hh]
  | cons p rest ih =>
    obtain ⟨h2, hh2⟩ := setAllHeaders_header_some rest req h hh
    by_cases hk : canonicalMIMEHeaderKey p.1 = canonicalMIMEHeaderKey k
    · simp [setAllHeaders, addHeaderToReq, hh2, requestHeaderGet, List.find?_cons, hk,
        headerGet_headerSet_self h2 p.1 k p.2 hk]
    · have hb : (canonicalMIMEHeaderKey p.1 == canonicalMIMEHeaderKey k) = false := by
        simp [hk]
      have hstep : requestHeaderGet (setAllHeaders (p :: rest) req) k =
          requestHeaderGet (setAllHeaders rest req) k := by
        simp [setAllHeaders, addHeaderToReq, hh2, requestHeaderGet,
          headerGet_headerSet_of_ne h2 p.1 k p.2 hk]
      rw [hstep, ih]
      simp [List.find?_cons, hb]

/-- With pairwise distinct canonical keys, `find?` on the pair list
recovers each pair from its key. -/
theorem find?_of_pairwise_ne (ms : List (String × String))
    (hnd : ms.Pairwise (fun a b => canonicalMIMEHeaderKey a.1 ≠ canonicalMIMEHeaderKey b.1))
    (kv : String × String) (hmem : kv ∈ ms) :
    ms.find? (fun p => canonicalMIMEHeaderKey p.1 == canonicalMIMEHeaderKey kv.1) = some kv := by
  induction ms with
  | nil => cases hmem
  | cons x rest ih =>
    rcases List.mem_cons.mp hmem with hx | hx
    · subst hx
      simp [List.find?_cons]
    · have hxk : canonicalMIMEHeaderKey x.1 ≠ canonicalMIMEHeaderKey kv.1 :=
        (List.pairwise_cons.mp hnd).1 kv hx
      have hb : (canonicalMIMEHeaderKey x.1 == canonicalMIMEHeaderKey kv.1) = false := by
        simp [hxk]
      simp [List.find?_cons, hb, ih (List.pairwise_cons.mp hnd).2 hx]

/-! ## Claim theorems -/

/-- Claim C1, counterexample.  With two `AddHeader` middlewares for the
same key, the request reaching the base transport carries the value of the
middleware appearing *first* in the construction order, not the later
one as the claim states: `Chain` makes the later middleware the outermost
wrapper, so its mutation executes first and the earlier middleware's
`Header.Set` overwrites it just before the wire. -/
theorem C1_counterexample :
    requestHeaderGet
      (Chain (some httpDefaultTransport)
        [AddHeader "X-Dup" "first", AddHeader "X-Dup" "second"]
        { methodName := "GET", url := "https://example.test/", header := some [] })
      "X-Dup" = some "first" ∧
    requestHeaderGet
      (Chain (some httpDefaultTransport)
        [AddHeader "X-Dup" "first", AddHeader "X-Dup" "second"]
        { methodName := "GET", url := "https://example.test/", header := some [] })
      "X-Dup" ≠ some "second" := by
  constructor
  · decide
  · decide

/-- Claim C1, amended.  For a chain built by `Chain` from two `AddHeader`
middlewares targeting the same header key, the one appearing *earlier* in
the construction order is the one whose value is present on the request
when it reaches the base transport: middlewares are applied in order, each
wrapping the previous result, so the later middleware is outermost and its
mutation executes first, while the first middleware's mutation executes
last, closest to the wire.  (The base transport is the identity observer,
whose result is the request that reaches it; the request's header map is
non-nil, as it is for every request issued by an `http.Client`.) -/
theorem C1_first_addHeader_wins (k v1 v2 : String) (req : Request) (h : Header)
    (hh : req.header = some h) :
    requestHeaderGet
      (Chain (some httpDefaultTransport) [AddHeader k v1, AddHeader k v2] req) k =
      some v1 := by
  have hmap : [AddHeader k v1, AddHeader k v2] =
      ([(k, v1), (k, v2)]).map (fun p => AddHeader p.1 p.2) := rfl
  rw [hmap, Chain_addHeader_apply]
  have hget := requestHeaderGet_setAllHeaders [(k, v1), (k, v2)] req h hh k
  simpa [httpDefaultTransport, List.find?_cons] using hget

/-- Witness for C1's amended theorem at a concrete chain and request. -/
theorem C1_first_addHeader_wins_witness :
    requestHeaderGet
      (Chain (some httpDefaultTransport)
        [AddHeader "X-Env" "alpha", AddHeader "X-Env" "beta"]
        { methodName := "GET", url := "https://example.test/", header := some [] })
      "X-Env" = some "alpha" :=
  C1_first_addHeader_wins "X-Env" "alpha" "beta"
    { methodName := "GET", url := "https://example.test/", header := some [] } [] rfl

/-- Claim C7: for every middleware chain built via `Chain` from
`AddHeader` middlewares whose header keys are pairwise distinct (as
headers, i.e. with distinct canonical forms), every request sent through
the composed transport reaches the base transport carrying every one of
the configured headers with its configured value, regardless of the order
of the list.  The base transport is the identity observer and the
request's header map is non-nil. -/
theorem C7_distinct_headers_all_present (ms : List (String × String))
    (req : Request) (h : Header) (hh : req.header = some h)
    (hnd : ms.Pairwise (fun a b => canonicalMIMEHeaderKey a.1 ≠ canonicalMIMEHeaderKey b.1))
    (kv : String × String) (hmem : kv ∈ ms) :
    requestHeaderGet
      (Chain (some httpDefaultTransport) (ms.map (fun p => AddHeader p.1 p.2)) req)
      kv.1 = some kv.2 := by
  rw [Chain_addHeader_apply]
  have hget := requestHeaderGet_setAllHeaders ms req h hh kv.1
  rw [show httpDefaultTransport (setAllHeaders ms req) = setAllHeaders ms req from rfl,
    hget, find?_of_pairwise_ne ms hnd kv hmem]

/-- Witness for C7 at a concrete two-middleware chain. -/
theorem C7_distinct_headers_all_present_witness :
    requestHeaderGet
      (Chain (some httpDefaultTransport)
        ([("X-One", "1"), ("X-Two", "2")].map (fun p => AddHeader p.1 p.2))
        { methodName := "GET", url := "https://example.test/", header := some [] })
      "X-Two" = some "2" :=
  C7_distinct_headers_all_present [("X-One", "1"), ("X-Two", "2")]
    { methodName := "GET", url := "https://example.test/", header := some [] } [] rfl
    (by simp [List.pairwise_cons]; decide) ("X-Two", "2") (by simp)

/-- Claim C6: when the authentication endpoint responds with the body
`{"AuthenticationResult":{"IdToken":"abc"}}`, `Authenticate` succeeds,
stores the token `"abc"` on the client, and every subsequent request sent
through the client's transport (with the non-nil header map every
client-issued request has) reaches the wire carrying
`Authorization: Bearer abc` and `Content-Type: application/json`,
installed by the `AddHeader` transport middleware. -/
theorem C6_authenticate_installs_bearer (c : Client) (hc : c.Token = "")
    (req : Request) (h : Header) (hh : req.header = some h) :
    (c.Authenticate (.body (.obj [("AuthenticationResult",
        .obj [("IdToken", .str "abc")])]))).2 = none ∧
    (c.Authenticate (.body (.obj [("AuthenticationResult",
        .obj [("IdToken", .str "abc")])]))).1.Token = "abc" ∧
    requestHeaderGet
      ((c.Authenticate (.body (.obj [("AuthenticationResult",
          .obj [("IdToken", .str "abc")])]))).1.Transport req)
      "Authorization" = some "Bearer abc" ∧
    requestHeaderGet
      ((c.Authenticate (.body (.obj [("AuthenticationResult",
          .obj [("IdToken", .str "abc")])]))).1.Transport req)
      "Content-Type" = some "application/json" := by
  have hna : c.NeedAuth = true := by simp [Client.NeedAuth, hc]
  have hres : c.Authenticate (.body (.obj [("AuthenticationResult",
      .obj [("IdToken", .str "abc")])])) =
      ({ c with
          Token := "abc",
          Transport := Chain none
            [AddHeader "Authorization" "Bearer abc",
             AddHeader "Content-Type" "application/json"] }, none) := by
    simp only [Client.Authenticate, hna, if_true]
    rfl
  rw [hres]
  have hcontent : addHeaderToReq "Content-Type" "application/json" req =
      { req with header := some (headerSet h "Content-Type" "application/json") } := by
    simp [addHeaderToReq, hh]
  refine ⟨rfl, rfl, ?_, ?_⟩
  · show requestHeaderGet
        (addHeaderToReq "Authorization" "Bearer abc"
          (addHeaderToReq "Content-Type" "application/json" req)) "Authorization" =
        some "Bearer abc"
    rw [hcontent]
    show headerGet (headerSet (headerSet h "Content-Type" "application/json")
        "Authorization" "Bearer abc") "Authorization" = some "Bearer abc"
    exact headerGet_headerSet_self _ "Authorization" "Authorization" "Bearer abc" rfl
  · show requestHeaderGet
        (addHeaderToReq "Authorization" "Bearer abc"
          (addHeaderToReq "Content-Type" "application/json" req)) "Content-Type" =
        some "application/json"
    rw [hcontent]
    show headerGet (headerSet (headerSet h "Content-Type" "application/json")
        "Authorization" "Bearer abc") "Content-Type" = some "application/json"
    rw [headerGet_headerSet_of_ne _ "Authorization" "Content-Type" "Bearer abc" (by decide)]
    exact headerGet_headerSet_self _ "Content-Type" "Content-Type" "application/json" rfl

/-- Witness for C6 at a concrete client and request. -/
theorem C6_authenticate_installs_bearer_witness :
    ((Client.Authenticate
        ⟨"https://io.example/", "https://co.example/", "https://auth.example/", "",
          httpDefaultTransport⟩
        (.body (.obj [("AuthenticationResult", .obj [("IdToken", .str "abc")])]))).2 = none ∧
     (Client.Authenticate
        ⟨"https://io.example/", "https://co.example/", "https://auth.example/", "",
          httpDefaultTransport⟩
        (.body (.obj [("AuthenticationResult", .obj [("IdToken", .str "abc")])]))).1.Token = "abc" ∧
     requestHeaderGet
       ((Client.Authenticate
          ⟨"https://io.example/", "https://co.example/", "https://auth.example/", "",
            httpDefaultTransport⟩
          (.body (.obj [("AuthenticationResult", .obj [("IdToken", .str "abc")])]))).1.Transport
         { methodName := "GET", url := "https://io.example/classes", header := some [] })
       "Authorization" = some "Bearer abc" ∧
     requestHeaderGet
       ((Client.Authenticate
          ⟨"https://io.example/", "https://co.example/", "https://auth.example/", "",
            httpDefaultTransport⟩
          (.body (.obj [("AuthenticationResult", .obj [("IdToken", .str "abc")])]))).1.Transport
         { methodName := "GET", url := "https://io.example/classes", header := some [] })
       "Content-Type" = some "application/json") :=
  C6_authenticate_installs_bearer
    ⟨"https://io.example/", "https://co.example/", "https://auth.example/", "",
      httpDefaultTransport⟩ rfl
    { methodName := "GET", url := "https://io.example/classes", header := some [] } [] rfl

/-- Claim C2, counterexample.  A response body that decodes as JSON but
lacks the token field (here the empty object) makes `Authenticate` return
a nil error, not the non-nil error the claim requires. -/
theorem C2_counterexample :
    (Client.Authenticate
      ⟨"https://io.example/", "https://co.example/", "https://auth.example/", "",
        httpDefaultTransport⟩
      (.body (.obj []))).2 = none := by decide

/-- Claim C2, amended.  A transport error and a non-decodable body are
surfaced as wrapped errors, but a body that decodes with the token field
absent or empty is *not* an error: `Authenticate` returns nil, stores the
empty token, and leaves the client still unauthenticated
(`NeedAuth = true`). -/
theorem C2_missing_token_not_an_error (c : Client) (j : Json) (hc : c.Token = "")
    (hdec : decodeAuthenticateResponse j =
      .ok { AuthenticationResult := { IDToken := "" } }) :
    (c.Authenticate (.body j)).2 = none ∧
    (c.Authenticate (.body j)).1.Token = "" ∧
    (c.Authenticate (.body j)).1.NeedAuth = true ∧
    (∀ m, (c.Authenticate (.httpErr m)).2 = some ("error authenticating: " ++ m)) ∧
    (∀ m, (c.Authenticate (.badBody m)).2 = some ("error parsing response: " ++ m)) := by
  have hna : c.NeedAuth = true := by simp [Client.NeedAuth, hc]
  refine ⟨?_, ?_, ?_, ?_, ?_⟩ <;>
    simp [Client.Authenticate, Client.NeedAuth, hc, hdec]

/-- Witness for C2's amended theorem: the empty JSON object. -/
theorem C2_missing_token_not_an_error_witness :
    ((Client.Authenticate
        ⟨"https://io2.example/", "https://co2.example/", "https://auth2.example/", "",
          httpDefaultTransport⟩ (.body (.obj []))).2 = none ∧
     (Client.Authenticate
        ⟨"https://io2.example/", "https://co2.example/", "https://auth2.example/", "",
          httpDefaultTransport⟩ (.body (.obj []))).1.Token = "" ∧
     (Client.Authenticate
        ⟨"https://io2.example/", "https://co2.example/", "https://auth2.example/", "",
          httpDefaultTransport⟩ (.body (.obj []))).1.NeedAuth = true ∧
     (∀ m, (Client.Authenticate
        ⟨"https://io2.example/", "https://co2.example/", "https://auth2.example/", "",
          httpDefaultTransport⟩ (.httpErr m)).2 = some ("error authenticating: " ++ m)) ∧
     (∀ m, (Client.Authenticate
        ⟨"https://io2.example/", "https://co2.example/", "https://auth2.example/", "",
          httpDefaultTransport⟩ (.badBody m)).2 = some ("error parsing response: " ++ m))) :=
  C2_missing_token_not_an_error
    ⟨"https://io2.example/", "https://co2.example/", "https://auth2.example/", "",
      httpDefaultTransport⟩ (.obj []) rfl rfl

/-- Claim C5, counterexample.  An `Authenticate` call that returns nil
(success, per the claim's wording) but whose response carried an empty
token leaves `NeedAuth` true, and a second `Authenticate` call is not a
no-op: it performs the network exchange again (here, surfacing a
transport error). -/
theorem C5_counterexample :
    ((Client.Authenticate
        ⟨"https://io.example/", "https://co.example/", "https://auth.example/", "",
          httpDefaultTransport⟩
        (.body (.obj [("AuthenticationResult", .obj [("IdToken", .str "")])]))).2 = none) ∧
    ((Client.Authenticate
        ⟨"https://io.example/", "https://co.example/", "https://auth.example/", "",
          httpDefaultTransport⟩
        (.body (.obj [("AuthenticationResult", .obj [("IdToken", .str "")])]))).1.NeedAuth
        = true) ∧
    (((Client.Authenticate
        ⟨"https://io.example/", "https://co.example/", "https://auth.example/", "",
          httpDefaultTransport⟩
        (.body (.obj [("AuthenticationResult", .obj [("IdToken", .str "")])]))).1.Authenticate
        (.httpErr "connection refused")).2 ≠ none) := by
  refine ⟨by decide, by decide, by decide⟩

/-- Claim C5, amended.  `NeedAuth` is true exactly when the token is the
empty string.  After an `Authenticate` call that returns nil *and stored a
non-empty token*, `NeedAuth` is false and any further `Authenticate` call
is a no-op — it leaves the client unchanged, returns nil, and its result
does not depend on the network outcome (no request is observed).  (A nil
return alone does not suffice: a decoded response with an absent or empty
token also returns nil but leaves `NeedAuth` true.) -/
theorem C5_needAuth_and_idempotence :
    (∀ c : Client, c.NeedAuth = (c.Token == "")) ∧
    (∀ (c c' : Client) (out : AuthOutcome),
      c.Authenticate out = (c', none) → c'.Token ≠ "" →
      c'.NeedAuth = false ∧ ∀ out2, c'.Authenticate out2 = (c', none)) := by
  refine ⟨fun c => rfl, fun c c' out heq hne => ?_⟩
  have hna : c'.NeedAuth = false := by simp [Client.NeedAuth, hne]
  exact ⟨hna, fun out2 => by simp [Client.Authenticate, hna]⟩

/-- Witness for C5's amended theorem: a successful authentication with a
non-empty token, after which a second call (with a would-be transport
error) is a no-op. -/
theorem C5_needAuth_and_idempotence_witness :
    ((Client.Authenticate
        ⟨"https://io.example/", "https://co.example/", "https://auth.example/", "",
          httpDefaultTransport⟩
        (.body (.obj [("AuthenticationResult", .obj [("IdToken", .str "abc")])]))).1.NeedAuth
        = false) ∧
    (∀ out2, ((Client.Authenticate
        ⟨"https://io.example/", "https://co.example/", "https://auth.example/", "",
          httpDefaultTransport⟩
        (.body (.obj [("AuthenticationResult", .obj [("IdToken", .str "abc")])]))).1.Authenticate
        out2) =
        ((Client.Authenticate
          ⟨"https://io.example/", "https://co.example/", "https://auth.example/", "",
            httpDefaultTransport⟩
          (.body (.obj [("AuthenticationResult", .obj [("IdToken", .str "abc")])]))).1, none)) :=
  C5_needAuth_and_idempotence.2
    ⟨"https://io.example/", "https://co.example/", "https://auth.example/", "",
      httpDefaultTransport⟩
    _ (.body (.obj [("AuthenticationResult", .obj [("IdToken", .str "abc")])]))
    rfl (by decide)

/-- Claim C3, counterexample.  A 500 response whose body decodes as
`{"items":[]}` makes `GetStudiosSchedules` return the decoded (empty)
result with a nil error: the status code is never checked, so a non-2xx
response does not produce the wrapped error the claim requires. -/
theorem C3_counterexample :
    (Client.GetStudiosSchedules
      ⟨"https://io.example/", "https://co.example/", "https://auth.example/", "tok",
        httpDefaultTransport⟩ ["studio-1"]
      (.ok { statusCode := 500, body := .ok (.obj [("items", .arr [])]) })).2 =
      (⟨[]⟩, none) := by rfl

/-- Claim C3, amended.  Neither `GetStudiosSchedules` nor
`GetClassTypeFilter` ever reads the response status code: the outcome is
determined solely by whether the body decodes.  A decodable body yields
the decoded result with a nil error even on a non-2xx status; any decode
failure discards the entire response (the zero-valued result is returned)
with a wrapped error. -/
theorem C3_status_ignored_decode_decides :
    (∀ (c : Client) (ids : List String) (s1 s2 : Nat) (body : Except String Json),
      c.GetStudiosSchedules ids (.ok ⟨s1, body⟩) =
        c.GetStudiosSchedules ids (.ok ⟨s2, body⟩)) ∧
    (∀ (c : Client) (ids : List String) (s : Nat) (body : Except String Json) (m : String),
      (body >>= decodeStudioScheduleResponse) = .error m →
      c.GetStudiosSchedules ids (.ok ⟨s, body⟩) =
        (c, ⟨[]⟩, some ("error parsing response: " ++ m))) ∧
    (∀ (c : Client) (ids : List String) (s : Nat) (body : Except String Json)
        (parsed : StudioScheduleResponse),
      (body >>= decodeStudioScheduleResponse) = .ok parsed →
      c.GetStudiosSchedules ids (.ok ⟨s, body⟩) = (c, parsed, none)) ∧
    (∀ (c : Client) (s1 s2 : Nat) (body : Except String Json),
      c.GetClassTypeFilter (.ok ⟨s1, body⟩) = c.GetClassTypeFilter (.ok ⟨s2, body⟩)) ∧
    (∀ (c : Client) (s : Nat) (body : Except String Json) (m : String),
      (body >>= decodeClassTypeFiltersResponse) = .error m →
      c.GetClassTypeFilter (.ok ⟨s, body⟩) =
        (c, ⟨[]⟩, some ("error parsing response for GetClassTypeFilter: " ++ m))) ∧
    (∀ (c : Client) (s : Nat) (body : Except String Json)
        (parsed : ClassTypeFiltersResponse),
      (body >>= decodeClassTypeFiltersResponse) = .ok parsed →
      c.GetClassTypeFilter (.ok ⟨s, body⟩) = (c, parsed, none)) := by
  refine ⟨?_, ?_, ?_, ?_, ?_, ?_⟩
  · intro c ids s1 s2 body
    simp only [Client.GetStudiosSchedules]
  · intro c ids s body m hdec
    simp only [Client.GetStudiosSchedules, hdec]
  · intro c ids s body parsed hdec
    simp only [Client.GetStudiosSchedules, hdec]
  · intro c s1 s2 body
    simp only [Client.GetClassTypeFilter]
  · intro c s body m hdec
    simp only [Client.GetClassTypeFilter, hdec]
  · intro c s body parsed hdec
    simp only [Client.GetClassTypeFilter, hdec]

/-- Witness for C3's amended theorem: a decode failure on a 200 response
discards everything with a wrapped error, and a decodable body on a 404
response is returned with a nil error. -/
theorem C3_status_ignored_decode_decides_witness :
    (Client.GetStudiosSchedules
      ⟨"https://io3.example/", "https://co3.example/", "https://auth3.example/", "tok",
        httpDefaultTransport⟩ ["studio-1"]
      (.ok { statusCode := 200, body := .error "unexpected end of JSON input" })) =
      (⟨"https://io3.example/", "https://co3.example/", "https://auth3.example/", "tok",
        httpDefaultTransport⟩, ⟨[]⟩,
        some ("error parsing response: " ++ "unexpected end of JSON input")) ∧
    (Client.GetClassTypeFilter
      ⟨"https://io3.example/", "https://co3.example/", "https://auth3.example/", "tok",
        httpDefaultTransport⟩
      (.ok { statusCode := 404, body := .ok (.obj [("items", .arr [])]) })) =
      (⟨"https://io3.example/", "https://co3.example/", "https://auth3.example/", "tok",
        httpDefaultTransport⟩, ⟨[]⟩, none) :=
  ⟨C3_status_ignored_decode_decides.2.1
      ⟨"https://io3.example/", "https://co3.example/", "https://auth3.example/", "tok",
        httpDefaultTransport⟩ ["studio-1"] 200 (.error "unexpected end of JSON input")
      "unexpected end of JSON input" rfl,
   C3_status_ignored_decode_decides.2.2.2.2.2
      ⟨"https://io3.example/", "https://co3.example/", "https://auth3.example/", "tok",
        httpDefaultTransport⟩ 404 (.ok (.obj [("items", .arr [])])) ⟨[]⟩ rfl⟩

/-- Claim C4, counterexample.  A 204 response — a 2xx status — does not
yield a nil error from `BookClass`: the code accepts exactly 200 and 201. -/
theorem C4_counterexample :
    (Client.BookClass
      ⟨"https://io.example/", "https://co.example/", "https://auth.example/", "tok",
        httpDefaultTransport⟩ (.obj [])
      (.ok { statusCode := 204, contentEncoding := "", rawBody := "",
             gzipDecompressed := none })).2 ≠ none := by decide

/-- Claim C4, amended.  `BookClass` returns a nil error exactly for
status 200 and 201 (not for every 2xx status); for every other status it
returns an error whose message carries the numeric status code and the
response body verbatim, the body being read through a gzip reader whenever
the response's `Content-Encoding` declares gzip; in particular a 409
response with body `class full` yields an error message containing both
`409` and `class full`. -/
theorem C4_bookClass_error_mapping :
    (∀ (c : Client) (breq : Json) (resp : BodyHTTPResponse),
      resp.statusCode = 200 ∨ resp.statusCode = 201 →
      (c.BookClass breq (.ok resp)).2 = none) ∧
    (∀ (c : Client) (breq : Json) (resp : BodyHTTPResponse),
      resp.statusCode ≠ 200 → resp.statusCode ≠ 201 →
      stringContains resp.contentEncoding "gzip" = false →
      (c.BookClass breq (.ok resp)).2 =
        some ("booking request failed with status code: " ++
          toString resp.statusCode ++ ", response body: " ++ resp.rawBody)) ∧
    (∀ (c : Client) (breq : Json) (resp : BodyHTTPResponse) (body : String),
      resp.statusCode ≠ 200 → resp.statusCode ≠ 201 →
      stringContains resp.contentEncoding "gzip" = true →
      resp.gzipDecompressed = some body →
      (c.BookClass breq (.ok resp)).2 =
        some ("booking request failed with status code: " ++
          toString resp.statusCode ++ ", response body: " ++ body)) ∧
    (∃ msg : String,
      (Client.BookClass
        ⟨"https://io.example/", "https://co.example/", "https://auth.example/", "tok",
          httpDefaultTransport⟩ (.obj [])
        (.ok { statusCode := 409, contentEncoding := "", rawBody := "class full",
               gzipDecompressed := none })).2 = some msg ∧
      stringContains msg "409" = true ∧ stringContains msg "class full" = true) := by
  refine ⟨?_, ?_, ?_, ?_⟩
  · intro c breq resp h200
    rcases h200 with h | h <;>
      simp [Client.BookClass, h]
  · intro c breq resp h200 h201 hgz
    have hb : (resp.statusCode != 200 && resp.statusCode != 201) = true := by
      simp [h200, h201]
    simp [Client.BookClass, hb, hgz]
  · intro c breq resp body h200 h201 hgz hz
    have hb : (resp.statusCode != 200 && resp.statusCode != 201) = true := by
      simp [h200, h201]
    simp [Client.BookClass, hb, hgz, hz]
  · exact ⟨"booking request failed with status code: 409, response body: class full",
      by decide, by decide, by decide⟩

/-- Witness for C4's amended theorem: a 201 success, a plain-body 409
failure, and a gzip-encoded 500 failure whose decompressed text lands in
the error message. -/
theorem C4_bookClass_error_mapping_witness :
    (Client.BookClass
      ⟨"https://io4.example/", "https://co4.example/", "https://auth4.example/", "tok",
        httpDefaultTransport⟩ (.obj [])
      (.ok { statusCode := 201, contentEncoding := "", rawBody := "",
             gzipDecompressed := none })).2 = none ∧
    (Client.BookClass
      ⟨"https://io4.example/", "https://co4.example/", "https://auth4.example/", "tok",
        httpDefaultTransport⟩ (.obj [])
      (.ok { statusCode := 409, contentEncoding := "", rawBody := "class full",
             gzipDecompressed := none })).2 =
      some ("booking request failed with status code: " ++
        toString (409 : Nat) ++ ", response body: " ++ "class full") ∧
    (Client.BookClass
      ⟨"https://io4.example/", "https://co4.example/", "https://auth4.example/", "tok",
        httpDefaultTransport⟩ (.obj [])
      (.ok { statusCode := 500, contentEncoding := "gzip", rawBody := "\x1f\x8b-bytes",
             gzipDecompressed := some "server exploded" })).2 =
      some ("booking request failed with status code: " ++
        toString (500 : Nat) ++ ", response body: " ++ "server exploded") :=
  ⟨C4_bookClass_error_mapping.1 _ (.obj [])
      { statusCode := 201, contentEncoding := "", rawBody := "", gzipDecompressed := none }
      (Or.inr rfl),
   C4_bookClass_error_mapping.2.1 _ (.obj [])
      { statusCode := 409, contentEncoding := "", rawBody := "class full",
        gzipDecompressed := none }
      (by decide) (by decide) (by decide),
   C4_bookClass_error_mapping.2.2.1 _ (.obj [])
      { statusCode := 500, contentEncoding := "gzip", rawBody := "\x1f\x8b-bytes",
        gzipDecompressed := some "server exploded" }
      "server exploded" (by decide) (by decide) (by decide) rfl⟩

/-- The fixed-width digit extraction always yields exactly `k` characters. -/
theorem natFixedDigits_length (k : Nat) : ∀ n : Nat, (natFixedDigits k n).length = k := by
  induction k with
  | zero => intro n; rfl
  | succ k ih => intro n; simp [natFixedDigits, ih]

/-- The fixed-width digit extraction yields decimal digit characters only. -/
theorem natFixedDigits_all_digit (k : Nat) :
    ∀ n : Nat, (natFixedDigits k n).all Char.isDigit = true := by
  induction k with
  | zero => intro n; rfl
  | succ k ih =>
    intro n
    simp only [natFixedDigits, List.all_append, ih, Bool.true_and, List.all_cons,
      List.all_nil, Bool.and_true]
    have h10 : n % 10 < 10 := Nat.mod_lt _ (by norm_num)
    revert h10
    generalize n % 10 = d
    intro h10
    interval_cases d <;> decide

set_option maxHeartbeats 4000000 in
/-- Claim C8.  The `src/unnamed/part_008` build of `ListStudios` does what
the claim says: its GET request's query parameters `latitude`, `longitude`
and `distance` carry exactly the caller-supplied values — unvalidated, so
zero and negative values pass through as-is — formatted by `toString`,
i.e. `strconv.FormatFloat(v, 'f', 15, 64)`, whose output always has
exactly 15 digit characters after the decimal point (second conjunct;
the third conjunct evaluates a full URL, with a positive, a negative and
a zero input, showing the fixed 15-digit fixed-point rendering).  The
`src/otf_api/studios.go` build, however, ignores the caller's arguments
entirely and hard-codes the three query values (last conjunct),
contradicting its own doc comment ("returns studios that lie within the
radius distance from the lat/long point specified"). -/
theorem C8_listStudios_query_params :
    (∀ (c : Client) (lat long distance : Rat),
      (part_008.ListStudios_buildRequest c lat long distance).url =
        c.BaseCOURL ++ "studios?" ++ urlValuesEncode
          [("latitude", [part_008.toString lat]),
           ("longitude", [part_008.toString long]),
           ("distance", [part_008.toString distance])]) ∧
    (∀ v : Rat, ∃ s1 s2 : String,
      part_008.toString v = s1 ++ "." ++ s2 ∧
      s2.length = 15 ∧ s2.toList.all Char.isDigit = true) ∧
    ((part_008.ListStudios_buildRequest
        ⟨"https://io.example/", "https://co.example/", "https://auth.example/", "tok",
          httpDefaultTransport⟩
        (mkRat 30259373217464326 1000000000000000) (mkRat (-977) 10) (mkRat 0 1)).url =
      "https://co.example/studios?distance=0.000000000000000&latitude=30.259373217464326&longitude=-97.700000000000000") ∧
    (∀ (c : Client) (lat long distance : Rat),
      (studios_go.ListStudios_buildRequest c lat long distance).url =
        c.BaseCOURL ++ "studios?" ++
          "distance=50.0&latitude=30.259373217464326&longitude=-97.70429793893") := by
  refine ⟨fun c lat long distance => rfl, ?_, by decide, ?_⟩
  · intro v
    refine ⟨(if v.num < 0 then "-" else "") ++
        Nat.repr ((roundScaledHalfEven
          ((if v.num < 0 then -v else v).num * 10 ^ 15)
          (if v.num < 0 then -v else v).den).toNat / 10 ^ 15),
      String.mk (natFixedDigits 15 ((roundScaledHalfEven
          ((if v.num < 0 then -v else v).num * 10 ^ 15)
          (if v.num < 0 then -v else v).den).toNat % 10 ^ 15)), rfl, ?_, ?_⟩
    · show (natFixedDigits 15 _).length = 15
      exact natFixedDigits_length 15 _
    · show (natFixedDigits 15 _).all Char.isDigit = true
      exact natFixedDigits_all_digit 15 _
  · intro c lat long distance
    show c.BaseCOURL ++ "studios?" ++
        urlValuesEncode (studios_go.ListStudios_params lat long distance) = _
    rw [show studios_go.ListStudios_params lat long distance =
      [("latitude", ["30.259373217464326"]),
       ("longitude", ["-97.70429793893"]),
       ("distance", ["50.0"])] from rfl]
    rw [show urlValuesEncode
      [("latitude", ["30.259373217464326"]),
       ("longitude", ["-97.70429793893"]),
       ("distance", ["50.0"])] =
      "distance=50.0&latitude=30.259373217464326&longitude=-97.70429793893" from by decide]

/-- Claim C9, counterexample.  `Authenticate` can write the token and
transport more than once on the same client: a first call whose response
carries an empty token replaces the transport (the client changes), and —
because the stored token is empty — a second call writes again, changing
the token.  The two inequalities exhibit two distinct mutations. -/
theorem C9_counterexample :
    ((Client.Authenticate
        ⟨"https://io.example/", "https://co.example/", "https://auth.example/", "",
          httpDefaultTransport⟩
        (.body (.obj [("AuthenticationResult", .obj [("IdToken", .str "")])]))).1 ≠
      ⟨"https://io.example/", "https://co.example/", "https://auth.example/", "",
        httpDefaultTransport⟩) ∧
    (((Client.Authenticate
        ⟨"https://io.example/", "https://co.example/", "https://auth.example/", "",
          httpDefaultTransport⟩
        (.body (.obj [("AuthenticationResult", .obj [("IdToken", .str "")])]))).1.Authenticate
        (.body (.obj [("AuthenticationResult", .obj [("IdToken", .str "tok2")])]))).1 ≠
      (Client.Authenticate
        ⟨"https://io.example/", "https://co.example/", "https://auth.example/", "",
          httpDefaultTransport⟩
        (.body (.obj [("AuthenticationResult", .obj [("IdToken", .str "")])]))).1) := by
  constructor
  · intro hEq
    exact absurd
      (congrArg (fun cl => requestHeaderGet
        (cl.Transport { methodName := "GET", url := "u", header := some [] })
        "Authorization") hEq)
      (by decide)
  · intro hEq
    exact absurd (congrArg Client.Token hEq) (by decide)

/-- Claim C9, amended.  Every resource-client operation (`ListStudios`,
`GetStudiosSchedules`, `GetClassTypeFilter`, `BookClass`, `CancelBooking`,
`GetBookings`) returns the client unchanged in success and error outcomes
alike, and `Authenticate` never modifies the base URLs.  Once the client
holds a non-empty token, `Authenticate` is a complete no-op.  (The claim's
"at most once per client" does not hold: while the token stays empty —
e.g. after a response with an absent or empty token — repeated
`Authenticate` calls write the token and transport again, as the
counterexample shows.) -/
theorem C9_frame_conditions :
    (∀ (c : Client) (lat long distance : Rat) (out : Except String String),
      (studios_go.ListStudios c lat long distance out).1 = c) ∧
    (∀ (c : Client) (ids : List String) (out : Except String JsonHTTPResponse),
      (c.GetStudiosSchedules ids out).1 = c) ∧
    (∀ (c : Client) (out : Except String JsonHTTPResponse),
      (c.GetClassTypeFilter out).1 = c) ∧
    (∀ (c : Client) (breq : Json) (out : Except String BodyHTTPResponse),
      (c.BookClass breq out).1 = c) ∧
    (∀ (c : Client) (bid : String) (out : Except String BodyHTTPResponse),
      (c.CancelBooking bid out).1 = c) ∧
    (∀ (c : Client) (sa eb : String) (ic : Bool) (out : Except String BodyHTTPResponse)
        (bj : Except String Json),
      (c.GetBookings sa eb ic out bj).1 = c) ∧
    (∀ (c : Client) (out : AuthOutcome),
      (c.Authenticate out).1.BaseIOURL = c.BaseIOURL ∧
      (c.Authenticate out).1.BaseCOURL = c.BaseCOURL ∧
      (c.Authenticate out).1.AuthURL = c.AuthURL) ∧
    (∀ (c : Client) (out : AuthOutcome),
      c.Token ≠ "" → c.Authenticate out = (c, none)) := by
  refine ⟨?_, ?_, ?_, ?_, ?_, ?_, ?_, ?_⟩
  · intro c lat long distance out
    cases out <;> rfl
  · intro c ids out
    rcases out with m | res
    · rfl
    · simp only [Client.GetStudiosSchedules]
      cases res.body >>= decodeStudioScheduleResponse <;> rfl
  · intro c out
    rcases out with m | res
    · rfl
    · simp only [Client.GetClassTypeFilter]
      cases res.body >>= decodeClassTypeFiltersResponse <;> rfl
  · intro c breq out
    rcases out with m | res
    · rfl
    · simp only [Client.BookClass]
      by_cases hs : (res.statusCode != 200 && res.statusCode != 201) = true <;>
        by_cases hg : stringContains res.contentEncoding "gzip" = true <;>
        cases hz : res.gzipDecompressed <;>
        simp [hs, hg, hz]
  · intro c bid out
    rcases out with m | res
    · rfl
    · simp only [Client.CancelBooking]
      by_cases hs : (res.statusCode != 200 && res.statusCode != 204) = true <;> simp [hs]
  · intro c sa eb ic out bj
    rcases out with m | res
    · rfl
    · simp only [Client.GetBookings]
      by_cases hs : (res.statusCode != 200) = true
      · simp [hs]
      · cases bj >>= decodeBookingResponse <;> simp [hs]
  · intro c out
    by_cases hna : c.NeedAuth = true
    · rcases out with m | m | j
      · simp [Client.Authenticate, hna]
      · simp [Client.Authenticate, hna]
      · simp only [Client.Authenticate, hna, if_true]
        cases decodeAuthenticateResponse j <;> simp
    · have hna' : c.NeedAuth = false := by simpa using hna
      simp [Client.Authenticate, hna']
  · intro c out hne
    have hna : c.NeedAuth = false := by simp [Client.NeedAuth, hne]
    simp [Client.Authenticate, hna]

/-- Witness for C9's amended theorem at concrete operations. -/
theorem C9_frame_conditions_witness :
    (Client.BookClass
      ⟨"https://io9.example/", "https://co9.example/", "https://auth9.example/", "tok",
        httpDefaultTransport⟩ (.obj [])
      (.ok { statusCode := 409, contentEncoding := "", rawBody := "class full",
             gzipDecompressed := none })).1 =
      ⟨"https://io9.example/", "https://co9.example/", "https://auth9.example/", "tok",
        httpDefaultTransport⟩ ∧
    Client.Authenticate
      ⟨"https://io9.example/", "https://co9.example/", "https://auth9.example/", "tok",
        httpDefaultTransport⟩ (.httpErr "connection refused") =
      (⟨"https://io9.example/", "https://co9.example/", "https://auth9.example/", "tok",
        httpDefaultTransport⟩, none) :=
  ⟨C9_frame_conditions.2.2.2.1
      ⟨"https://io9.example/", "https://co9.example/", "https://auth9.example/", "tok",
        httpDefaultTransport⟩ (.obj [])
      (.ok { statusCode := 409, contentEncoding := "", rawBody := "class full",
             gzipDecompressed := none }),
   C9_frame_conditions.2.2.2.2.2.2.2
      ⟨"https://io9.example/", "https://co9.example/", "https://auth9.example/", "tok",
        httpDefaultTransport⟩ (.httpErr "connection refused") (by decide)⟩

/-- Claim C10: JSON-encoding any `BookingRequest` — including its nested
`Class`, `BookingStudio`, `Address` and `Coach` structures — and decoding
the resulting document back through the same field tags reproduces the
original value field for field. -/
theorem C10_bookingRequest_roundtrip (b : BookingRequest) :
    decodeBookingRequest (encodeBookingRequest b) = .ok b := rfl

end otf_api
